import Mathlib

set_option maxRecDepth 100000

/-!
Verification of the conversation state machine, prompt construction,
response parsing and persistence logic of the BestFilmsBot Telegram bot
(`src/main.py`), as a shallow embedding in Lean 4.

Modelling conventions:
* Python strings are Lean `String`s; operations such as `str.startswith`,
  `str.replace(pat, "")` and `", ".join(...)` are re-implemented below on
  `List Char` with the same semantics, so that every definition is
  executable by the kernel.
* The per-user `context.user_data` dictionary is modelled by the
  `UserData` structure: `user_data.clear()` corresponds to the default
  value (empty selections, no keywords), matching the defaults the
  handlers use when reading the keys via get-with-default.
* Each Telegram handler of `src/main.py` becomes a pure function from the
  current `UserData` (and the incoming token or text) to a `TurnOut`
  record carrying the updated `UserData`, the conversation state the
  handler returns, the texts sent to the user, the pop-up alerts
  (`query.answer(..., show_alert=True)`) and the rows inserted into the
  `films` table.  Message-rendering details (inline keyboards, message
  editing and its `BadRequest` fallback, which re-sends the same text)
  are transport concerns and are not part of the state.
* The Gemini call is an oracle `gen : String → Except String String`
  supplied with each text event: `Except.ok` is a successful
  `model.generate_content` call, `Except.error` an exception.
* Dispatch (`dispatch` below) follows the `ConversationHandler` wiring of
  `main()`: per-state handler lists, fallbacks `/cancel` and the
  catch-all `unknown` reply.  The registered callback patterns in
  `main()` are anchored regexes (`^(genre_|confirm_genres)$`) which, read
  literally, match only the two exact strings; the model instead routes
  every `genre_`-prefixed token to `select_genres`, matching the
  own `query.data.startswith("genre_")` test of the handler.  This is a
  superset of the literally-dispatched behaviours (every event the
  anchored regex drops is a no-op), so the safety invariants proved over
  this model also hold for the anchored dispatch.
-/

/-! ## List-level string helpers (Python semantics) -/

/-- `isPrefixL pat l` decides whether `pat` is a prefix of `l`. -/
def isPrefixL : List Char → List Char → Bool
  | [], _ => true
  | _ :: _, [] => false
  | c :: cs, d :: ds => c == d && isPrefixL cs ds

/-- `containsSub l sub` decides whether `sub` occurs contiguously in `l`. -/
def containsSub (l sub : List Char) : Bool :=
  match l with
  | [] => isPrefixL sub []
  | _ :: t => isPrefixL sub (l) || containsSub t sub

/-- Substring test on strings, Python `sub in s`. -/
def containsS (s sub : String) : Bool :=
  containsSub s.data sub.data

/-- Python `s.startswith(pre)`. -/
def startswith (s pre : String) : Bool :=
  isPrefixL pre.data s.data

/-- Fuel-driven core of `replaceAllS`: removes every occurrence of `pat`
from the list, left to right, like Python `str.replace(pat, "")`. -/
def stripAllAux : Nat → List Char → List Char → List Char
  | 0, _, _ => []
  | _ + 1, _, [] => []
  | fuel + 1, pat, c :: t =>
    if !pat.isEmpty && isPrefixL pat (c :: t) then
      stripAllAux fuel pat ((c :: t).drop pat.length)
    else
      c :: stripAllAux fuel pat t

/-- Python `s.replace(pat, "")`: removes all occurrences of `pat`. -/
def replaceAllS (s pat : String) : String :=
  ⟨stripAllAux s.data.length pat.data s.data⟩

/-- Python `sep.join(parts)`. -/
def joinSep (sep : String) : List String → String
  | [] => ""
  | [x] => x
  | x :: xs => x ++ sep ++ joinSep sep xs

/-! ## Option catalogs (`FILM_GENRES`, `FILM_YEAR_RANGES` of `src/main.py`) -/

/-- Genre catalog: display label to normalized value, in source order. -/
def FILM_GENRES : List (String × String) :=
  [("Боевик", "action"), ("Комедия", "comedy"), ("Драма", "drama"),
   ("Триллер", "thriller"), ("Ужасы", "horror"), ("Фантастика", "sci-fi"),
   ("Фэнтези", "fantasy"), ("Приключения", "adventure"), ("Мелодрама", "romance"),
   ("Мультфильм", "animation"), ("Детектив", "mystery"), ("Исторический", "historical"),
   ("Документальный", "documentary")]

/-- Year-range catalog: display label to normalized value, in source order. -/
def FILM_YEAR_RANGES : List (String × String) :=
  [("00-е (2000-2009)", "2000-2009"),
   ("10-е (2010-2020)", "2010-2020"),
   ("20-е (2020-2029)", "2020-2029"),
   ("30-е (1930-1939)", "1930-1939"),
   ("40-е (1940-1949)", "1940-1949"),
   ("50-е (1950-1959)", "1950-1959"),
   ("60-е (1960-1969)", "1960-1969"),
   ("70-е (1970-1979)", "1970-1979"),
   ("80-е (1980-1989)", "1980-1989"),
   ("90-е (1990-1999)", "1990-1999")]

/-- Python `FILM_YEAR_RANGES[label]`, as an `Option` (a missing key raises
`KeyError` in Python; the dispatcher models that aborted turn explicitly). -/
def yearRangeValue (label : String) : Option String :=
  (FILM_YEAR_RANGES.find? (fun p => p.1 == label)).map (fun p => p.2)

/-- Renders every selected year label to its catalog value; `none` if any
label is absent from the catalog (Python raises `KeyError` there). -/
def lookupYears : List String → Option (List String)
  | [] => some []
  | y :: t =>
    match yearRangeValue y, lookupYears t with
    | some v, some vs => some (v :: vs)
    | _, _ => none

/-! ## Data model -/

/-- The per-user `context.user_data` of `src/main.py`, restricted to the
three keys the handlers use.  The default value is the cleared dictionary. -/
structure UserData where
  selected_genres : List String := []
  selected_years : List String := []
  keywords : Option String := none
  deriving DecidableEq, Repr

/-- Conversation states: `SELECT_GENRES`, `SELECT_YEARS`, `ENTER_KEYWORDS`
(= `range(3)` in the source) plus `ended` for `ConversationHandler.END`
(also the state before any `/start`). -/
inductive ConvState where
  | selectGenres
  | selectYears
  | enterKeywords
  | ended
  deriving DecidableEq, Repr

/-- Identity of the Telegram user attached to each update
(`update.effective_user`). -/
structure User where
  id : Nat
  username : String
  first_name : String
  last_name : String
  deriving DecidableEq, Repr

/-- Per-user session state: the `ConversationHandler` state together with
`context.user_data`. -/
structure Sess where
  conv : ConvState
  ud : UserData
  deriving DecidableEq, Repr

/-- A value bound into an SQL `INSERT`. -/
inductive SqlVal where
  | int (i : Nat)
  | str (s : String)
  deriving DecidableEq, Repr

/-- Observable outcome of one handler invocation: updated `user_data`, the
conversation state the handler returns, the message texts sent to the
user, the pop-up alerts, and the rows inserted into the `films` table. -/
structure TurnOut where
  ud : UserData
  next : ConvState
  replies : List String := []
  alerts : List String := []
  films : List (List (String × SqlVal)) := []
  deriving DecidableEq, Repr

/-! ## Title Extractor (spec §4.3) -/

/-- Parses a leading decimal numeral. -/
def natOfDigits (ds : List Char) : Nat :=
  ds.foldl (fun n c => n * 10 + (c.toNat - 48)) 0

/-- Trims surrounding whitespace and trailing comma/period characters from
a captured title fragment. -/
def trimTitle (l : List Char) : List Char :=
  let noLead := l.dropWhile (fun c => c.isWhitespace)
  ((noLead.reverse.dropWhile (fun c => c.isWhitespace || c == ',' || c == '.')).reverse)

/-- Parses one line of model output: an integer rank, a period, optional
whitespace, then a title fragment terminated before the first colon or
period; returns the rank and the trimmed fragment. -/
def parseRankLine (line : List Char) : Option (Nat × String) :=
  let digits := line.takeWhile (fun c => c.isDigit)
  if digits.isEmpty then none
  else
    match line.dropWhile (fun c => c.isDigit) with
    | '.' :: rest =>
      let body := rest.dropWhile (fun c => c.isWhitespace)
      let frag := body.takeWhile (fun c => !(c == ':') && !(c == '.'))
      some (natOfDigits digits, ⟨trimTitle frag⟩)
    | _ => none

/-- Splits a character list at newline characters. -/
def splitLinesL : List Char → List (List Char)
  | [] => [[]]
  | c :: t =>
    if c == '\n' then [] :: splitLinesL t
    else
      match splitLinesL t with
      | [] => [[c]]
      | h :: r => (c :: h) :: r

/-- Applies one parsed line to the three rank slots (ranks outside
`{1,2,3}` are ignored; a matching line overwrites the slot). -/
def applyLine (slots : List (Option String)) (line : List Char) : List (Option String) :=
  match parseRankLine line with
  | some (rank, title) =>
    if 1 ≤ rank && rank ≤ 3 then slots.set (rank - 1) (some title) else slots
  | none => slots

/-- Modelled from the spec: the Title Extractor of §4.3 is not present in
`src/main.py` (this revision neither parses the model response nor stores
extracted titles); the definition follows the algorithm of the spec: scan the
text line by line for lines shaped "integer, period, optional whitespace,
then a title fragment terminated before the first colon or period", keep
ranks 1-3 with last-match-wins, trimming trailing comma/period and
surrounding whitespace.  The "optional literal label prefix" of the spec names
no literal and is omitted. -/
def extract (responseText : String) : List (Option String) :=
  (splitLinesL responseText.data).foldl applyLine [none, none, none]

/-! ## Prompt Builder (`prompt_text` of `handle_keywords`, lines 377-383) -/

/-- The prompt assembled for Gemini from the rendered genre string, the
rendered years string and the keywords of the user. -/
def prompt_text (genres_str years_str keywords : String) : String :=
  "Предложи ТОП-3 лучших фильма в жанрах: " ++ genres_str ++ ", " ++
  "выпущенных в годах: " ++ years_str ++ ". " ++
  "Ориентируйся на следующие ключевые слова/описание: \u0027" ++ keywords ++ "\u0027. " ++
  "Для каждого фильма укажи: Название, Год выпуска, Жанр(ы), Краткое описание (1-2 предложения). " ++
  "Форматируй ответ так, чтобы его было легко читать. Только лучшие фильмы по этому запросу."

/-! ## Persistence (`save_user_data`, `save_film_request`) -/

/-- The `users2` table as a list of rows `(id, username, first_name,
last_name)`.  `save_user_data` checks for an existing row with the same id
and inserts only if absent; an existing row is left untouched.  (The
`created_at` column is filled by the database default; connection or SQL
failures leave the table unchanged and are logged only.) -/
def save_user_data (db : List (Nat × String × String × String))
    (user_id : Nat) (username first_name last_name : String) :
    List (Nat × String × String × String) :=
  if (db.find? (fun r => r.1 == user_id)).isSome then db
  else db ++ [(user_id, username, first_name, last_name)]

/-- The row inserted into the `films` table, as the column/value pairs of
the `INSERT` statement of `save_film_request` (lines 156-165); `country`,
`city` and `phone_number` are the empty-string stubs of lines 152-154.
The `id` and `requested_at` columns are filled by database defaults. -/
def save_film_request (user_id : Nat)
    (username first_name last_name genres years keywords gemini_response : String) :
    List (String × SqlVal) :=
  [("user_id", SqlVal.int user_id),
   ("telegram_username", SqlVal.str username),
   ("user_first_name", SqlVal.str first_name),
   ("user_last_name", SqlVal.str last_name),
   ("user_country", SqlVal.str ""),
   ("user_city", SqlVal.str ""),
   ("user_phone_number", SqlVal.str ""),
   ("genres", SqlVal.str genres),
   ("years", SqlVal.str years),
   ("keywords", SqlVal.str keywords),
   ("gemini_response", SqlVal.str gemini_response)]

/-! ## Reply and alert texts -/

/-- Keyboard-edit text of `select_genres` / `back_to_genres`:
"choose 1 to 3 genres" plus the current selection (and, after a toggle,
the added/removed note). -/
def genresMenuText (selected : List String) (note : String) : String :=
  "Выберите от 1 до 3 жанров:\n" ++
  "Выбрано: " ++ (if selected.isEmpty then "ничего" else joinSep ", " selected) ++
  (if note.isEmpty then "" else "\n" ++ note)

/-- Keyboard-edit text of `select_years` / `back_to_years`. -/
def yearsMenuText (selected : List String) (note : String) : String :=
  "Выберите года выпуска (можно выбрать несколько):\n" ++
  "Выбрано: " ++ (if selected.isEmpty then "ничего" else joinSep ", " selected) ++
  (if note.isEmpty then "" else "\n" ++ note)

/-- Alert shown when a fourth distinct genre is toggled. -/
def maxGenresAlert : String := "Вы можете выбрать не более 3 жанров."

/-- Alert shown when confirming an empty genre selection. -/
def emptyGenresAlert : String := "Пожалуйста, выберите хотя бы один жанр."

/-- Alert shown when confirming an empty year selection. -/
def emptyYearsAlert : String := "Пожалуйста, выберите хотя бы один диапазон годов."

/-- Message after genre confirmation. -/
def yearsIntroText : String :=
  "Отлично! Теперь выберите года выпуска (можно выбрать несколько):"

/-- Message after year confirmation, asking for keywords. -/
def keywordsIntroText : String :=
  "Наконец, введите ключевые слова, название фильма или описание того, что вы ищете (например, \u0027французский фильм про космос\u0027, \u0027комедия с Джимом Керри\u0027, \u0027научная фантастика с неожиданным концом\u0027):"

/-- "Something went wrong, start over" message of `handle_keywords`. -/
def brokenStateText : String :=
  "Что-то пошло не так. Пожалуйста, начните сначала с /start."

/-- "Searching" message of `handle_keywords`. -/
def searchingText : String :=
  "Отлично! Ищу лучшие фильмы по вашему запросу. Это может занять немного времени..."

/-- User-visible error message when the Gemini call raises. -/
def geminiErrorText : String :=
  "Извини, произошла ошибка при получении информации о фильмах. Попробуй еще раз позже."

/-- Closing message of `handle_keywords` (with the "start over" button). -/
def hopeText : String := "Надеюсь, вам что-то подойдет!"

/-- Reply of the `cancel` handler. -/
def cancelText : String :=
  "Поиск отменен. Если хочешь начать сначала, используй команду /start."

/-- Reply of the `unknown` fallback handler. -/
def unknownText : String :=
  "Извини, я не понял эту команду. Попробуй /start, чтобы начать поиск фильмов."

/-! ## Handlers (`src/main.py` lines 176-503) -/

/-- `start` (lines 176-197): upserts the user profile (see
`save_user_data`, modelled separately on the `users2` table), clears
`user_data`, initialises both selections to `[]` and shows the genre
menu.  The greeting text interpolates `user.mention_html()` and is a
transport rendering; it is not tracked here. -/
def start (_u : User) : TurnOut :=
  { ud := { selected_genres := [], selected_years := [], keywords := none },
    next := ConvState.selectGenres }

/-- `select_genres` (lines 199-281): a `genre_`-prefixed token toggles the
raw suffix in `selected_genres` (capped at 3 distinct genres, with an
alert at the cap); `confirm_genres` moves on to year selection when at
least one genre is selected, otherwise alerts; anything else falls
through unchanged. -/
def select_genres (ud : UserData) (data : String) : TurnOut :=
  if startswith data "genre_" then
    let genre := replaceAllS data "genre_"
    let gs := ud.selected_genres
    if gs.contains genre then
      let gs' := gs.erase genre
      { ud := { ud with selected_genres := gs' },
        next := ConvState.selectGenres,
        replies := [genresMenuText gs' ("Жанр \u0027" ++ genre ++ "\u0027 удален. ")] }
    else if gs.length < 3 then
      let gs' := gs ++ [genre]
      { ud := { ud with selected_genres := gs' },
        next := ConvState.selectGenres,
        replies := [genresMenuText gs' ("Жанр \u0027" ++ genre ++ "\u0027 добавлен. ")] }
    else
      { ud := { ud with selected_genres := gs },
        next := ConvState.selectGenres,
        replies := [genresMenuText gs "Выбрано 3 жанра. "],
        alerts := [maxGenresAlert] }
  else if data == "confirm_genres" then
    if ud.selected_genres.isEmpty then
      { ud := ud, next := ConvState.selectGenres, alerts := [emptyGenresAlert] }
    else
      { ud := ud, next := ConvState.selectYears, replies := [yearsIntroText] }
  else
    { ud := ud, next := ConvState.selectGenres }

/-- `select_years` (lines 284-354): a `year_`-prefixed token toggles the
raw suffix in `selected_years` (no cap); `confirm_years` moves on to
keyword entry when at least one range is selected, otherwise alerts;
anything else falls through unchanged. -/
def select_years (ud : UserData) (data : String) : TurnOut :=
  if startswith data "year_" then
    let yr := replaceAllS data "year_"
    let ys := ud.selected_years
    if ys.contains yr then
      let ys' := ys.erase yr
      { ud := { ud with selected_years := ys' },
        next := ConvState.selectYears,
        replies := [yearsMenuText ys' ("Года \u0027" ++ yr ++ "\u0027 удалены. ")] }
    else
      let ys' := ys ++ [yr]
      { ud := { ud with selected_years := ys' },
        next := ConvState.selectYears,
        replies := [yearsMenuText ys' ("Года \u0027" ++ yr ++ "\u0027 добавлены. ")] }
  else if data == "confirm_years" then
    if ud.selected_years.isEmpty then
      { ud := ud, next := ConvState.selectYears, alerts := [emptyYearsAlert] }
    else
      { ud := ud, next := ConvState.enterKeywords, replies := [keywordsIntroText] }
  else
    { ud := ud, next := ConvState.selectYears }

/-- `handle_keywords` (lines 357-422): stores the keywords, bails out to
`END` if either selection is empty, otherwise renders the selections,
builds the prompt and calls the model through the oracle `gen`.  On
success it sends the raw model text and records the request; on failure
it sends `geminiErrorText` and records nothing; either way it sends the
closing message and returns `END` without clearing `user_data`.  If a
selected year label is absent from `FILM_YEAR_RANGES`, line 375 raises
`KeyError` before the `try` block: the turn aborts after the "searching"
message and the conversation state is left unchanged. -/
def handle_keywords (u : User) (ud : UserData) (text : String)
    (gen : String → Except String String) : TurnOut :=
  let ud1 := { ud with keywords := some text }
  if ud.selected_genres.isEmpty || ud.selected_years.isEmpty then
    { ud := ud1, next := ConvState.ended, replies := [brokenStateText] }
  else
    match lookupYears ud.selected_years with
    | none =>
      { ud := ud1, next := ConvState.enterKeywords, replies := [searchingText] }
    | some yearVals =>
      let genres_str := joinSep ", " ud.selected_genres
      let years_str := joinSep ", " yearVals
      match gen (prompt_text genres_str years_str text) with
      | Except.ok resp =>
        { ud := ud1, next := ConvState.ended,
          replies := [searchingText, resp, hopeText],
          films := [save_film_request u.id u.username u.first_name u.last_name
                      genres_str years_str text resp] }
      | Except.error _ =>
        { ud := ud1, next := ConvState.ended,
          replies := [searchingText, geminiErrorText, hopeText] }

/-- `cancel` (lines 424-433): replies, clears `user_data`, ends the
conversation. -/
def cancel (_ud : UserData) : TurnOut :=
  { ud := {}, next := ConvState.ended, replies := [cancelText] }

/-- `back_to_genres` (lines 441-470): clears `selected_years` and returns
to the genre menu (the kept genre selection stays highlighted). -/
def back_to_genres (ud : UserData) : TurnOut :=
  { ud := { ud with selected_years := [] },
    next := ConvState.selectGenres,
    replies := [genresMenuText ud.selected_genres ""] }

/-- `back_to_years` (lines 473-503): clears `keywords` and returns to the
year menu. -/
def back_to_years (ud : UserData) : TurnOut :=
  { ud := { ud with keywords := none },
    next := ConvState.selectYears,
    replies := [yearsMenuText ud.selected_years ""] }

/-! ## Event dispatch (`main`, lines 507-537) -/

/-- An inbound update for one user: the `/start` command, a callback
button press carrying its data token, a plain text message together with
the Gemini oracle used during that turn, or the `/cancel` command. -/
inductive Ev where
  | startCmd
  | cb (data : String)
  | msg (text : String) (gen : String → Except String String)
  | cancelCmd

/-- A no-op turn: state and data unchanged, nothing sent. -/
def noTurn (s : Sess) : TurnOut :=
  { ud := s.ud, next := s.conv }

/-- The `unknown` fallback (lines 435-437): replies, changes nothing. -/
def unknownTurn (s : Sess) : TurnOut :=
  { ud := s.ud, next := s.conv, replies := [unknownText] }

/-- One event-handling cycle of the `ConversationHandler` of `main()` for
a single user: routes the event to the handler registered for the current
state (callback tokens by the prefix tests of the handler bodies, see the
header note on the anchored registration regexes), falls back to `cancel`
for `/cancel`, to `unknown` for unhandled text or commands inside the
conversation, and outside the conversation handles `/start` as the entry
point (the `start_over` button runs `start` without entering the
conversation, so the returned state is dropped and the session stays
ended). -/
def dispatch (u : User) (s : Sess) (e : Ev) : TurnOut :=
  match s.conv with
  | ConvState.ended =>
    match e with
    | Ev.startCmd => start u
    | Ev.cb d =>
      if d == "start_over" then { start u with next := ConvState.ended }
      else noTurn s
    | Ev.msg _ _ => noTurn s
    | Ev.cancelCmd => unknownTurn s
  | ConvState.selectGenres =>
    match e with
    | Ev.cb d =>
      if startswith d "genre_" || d == "confirm_genres" then select_genres s.ud d
      else if d == "back_to_genres" then back_to_genres s.ud
      else noTurn s
    | Ev.msg _ _ => unknownTurn s
    | Ev.startCmd => unknownTurn s
    | Ev.cancelCmd => cancel s.ud
  | ConvState.selectYears =>
    match e with
    | Ev.cb d =>
      if startswith d "year_" || d == "confirm_years" then select_years s.ud d
      else if d == "back_to_genres" then back_to_genres s.ud
      else noTurn s
    | Ev.msg _ _ => unknownTurn s
    | Ev.startCmd => unknownTurn s
    | Ev.cancelCmd => cancel s.ud
  | ConvState.enterKeywords =>
    match e with
    | Ev.cb d =>
      if d == "back_to_years" then back_to_years s.ud
      else noTurn s
    | Ev.msg t gen => handle_keywords u s.ud t gen
    | Ev.startCmd => unknownTurn s
    | Ev.cancelCmd => cancel s.ud

/-- The session after a turn. -/
def sessOf (t : TurnOut) : Sess :=
  { conv := t.next, ud := t.ud }

/-- Runs a sequence of events from a given session. -/
def runFrom (u : User) (s : Sess) (evs : List Ev) : Sess :=
  evs.foldl (fun s e => sessOf (dispatch u s e)) s

/-- The session of a fresh user: no active conversation, empty data. -/
def initSess : Sess :=
  { conv := ConvState.ended, ud := {} }

/-- The session reached from a fresh user by a sequence of events. -/
def reach (u : User) (evs : List Ev) : Sess :=
  runFrom u initSess evs

/-- The back-navigation scenario of claim C7, expressed with the events of
the code: `back_to_genres`, then choosing genre `g` (toggle plus confirm),
then choosing year range `y` (toggle plus confirm). -/
def backThenChoose (u : User) (s : Sess) (g y : String) : Sess :=
  runFrom u s
    [Ev.cb "back_to_genres",
     Ev.cb ("genre_" ++ g), Ev.cb "confirm_genres",
     Ev.cb ("year_" ++ y), Ev.cb "confirm_years"]

/-! ## Invariants -/

/-- The ordering invariant of spec §3: the year menu is reachable only
with a genre chosen, keyword entry only with both selections made. -/
def SelInv (s : Sess) : Prop :=
  (s.conv = ConvState.selectYears → s.ud.selected_genres ≠ []) ∧
  (s.conv = ConvState.enterKeywords →
    s.ud.selected_genres ≠ [] ∧ s.ud.selected_years ≠ [])

/-- The genre-cap invariant: never more than 3 selected genres. -/
def GenreCap (s : Sess) : Prop :=
  s.ud.selected_genres.length ≤ 3

/-! ## Helper lemmas -/

theorem isPrefixL_append (s a b : List Char) (h : isPrefixL s a = true) :
    isPrefixL s (a ++ b) = true := by
  induction s generalizing a with
  | nil => rfl
  | cons c cs ih =>
    cases a with
    | nil => simp [isPrefixL] at h
    | cons d ds =>
      simp only [isPrefixL, Bool.and_eq_true] at h ⊢
      exact ⟨h.1, ih ds h.2⟩

theorem containsSub_nil (l : List Char) : containsSub l [] = true := by
  cases l <;> simp [containsSub, isPrefixL]

theorem containsSub_append_left (a b s : List Char) (h : containsSub a s = true) :
    containsSub (a ++ b) s = true := by
  induction a with
  | nil =>
    cases s with
    | nil => exact containsSub_nil b
    | cons c cs => simp [containsSub, isPrefixL] at h
  | cons c t ih =>
    simp only [containsSub, Bool.or_eq_true] at h
    rcases h with h | h
    · simp only [List.cons_append, containsSub, Bool.or_eq_true]
      exact Or.inl (isPrefixL_append s (c :: t) b h)
    · simp only [List.cons_append, containsSub, Bool.or_eq_true]
      exact Or.inr (ih h)

theorem containsSub_append_right (a b s : List Char) (h : containsSub b s = true) :
    containsSub (a ++ b) s = true := by
  induction a with
  | nil => simpa using h
  | cons c t ih =>
    simp only [List.cons_append, containsSub, Bool.or_eq_true]
    exact Or.inr ih

theorem containsS_append_left (x y sub : String) (h : containsS x sub = true) :
    containsS (x ++ y) sub = true := by
  simp only [containsS, String.data_append]
  exact containsSub_append_left x.data y.data sub.data h

theorem containsS_append_right (x y sub : String) (h : containsS y sub = true) :
    containsS (x ++ y) sub = true := by
  simp only [containsS, String.data_append]
  exact containsSub_append_right x.data y.data sub.data h

@[simp] theorem sessOf_conv (t : TurnOut) : (sessOf t).conv = t.next := rfl

@[simp] theorem sessOf_ud (t : TurnOut) : (sessOf t).ud = t.ud := rfl

theorem select_genres_years (ud : UserData) (d : String) :
    (select_genres ud d).ud.selected_years = ud.selected_years := by
  simp only [select_genres]
  split_ifs <;> rfl

theorem select_genres_next (ud : UserData) (d : String) :
    (select_genres ud d).next = ConvState.selectGenres ∨
      ((select_genres ud d).next = ConvState.selectYears ∧
        (select_genres ud d).ud = ud ∧ ud.selected_genres ≠ [] ∧
        d = "confirm_genres") := by
  simp only [select_genres]
  split_ifs with h1 h2 h3 h4 h5
  · exact Or.inl rfl
  · exact Or.inl rfl
  · exact Or.inl rfl
  · exact Or.inl rfl
  · refine Or.inr ⟨rfl, rfl, ?_, ?_⟩
    · simpa [List.isEmpty_iff] using h5
    · simpa using h4
  · exact Or.inl rfl

theorem select_genres_len (ud : UserData) (d : String)
    (h : ud.selected_genres.length ≤ 3) :
    (select_genres ud d).ud.selected_genres.length ≤ 3 := by
  simp only [select_genres]
  split_ifs with h1 h2 h3
  · simpa using le_trans (List.length_erase_le _ _) h
  · simp only []
    have : ud.selected_genres.length < 3 := h3
    simp [List.length_append]
    omega
  · exact h
  · exact h
  · exact h
  · exact h

theorem select_years_genres (ud : UserData) (d : String) :
    (select_years ud d).ud.selected_genres = ud.selected_genres := by
  simp only [select_years]
  split_ifs <;> rfl

theorem select_years_next (ud : UserData) (d : String) :
    (select_years ud d).next = ConvState.selectYears ∨
      ((select_years ud d).next = ConvState.enterKeywords ∧
        (select_years ud d).ud = ud ∧ ud.selected_years ≠ [] ∧
        d = "confirm_years") := by
  simp only [select_years]
  split_ifs with h1 h2 h3 h4
  · exact Or.inl rfl
  · exact Or.inl rfl
  · exact Or.inl rfl
  · refine Or.inr ⟨rfl, rfl, ?_, ?_⟩
    · simpa [List.isEmpty_iff] using h4
    · simpa using h3
  · exact Or.inl rfl

theorem handle_keywords_sel (u : User) (ud : UserData) (t : String)
    (gen : String → Except String String) :
    (handle_keywords u ud t gen).ud.selected_genres = ud.selected_genres ∧
    (handle_keywords u ud t gen).ud.selected_years = ud.selected_years := by
  simp only [handle_keywords]
  split
  · exact ⟨rfl, rfl⟩
  · split
    · exact ⟨rfl, rfl⟩
    · split <;> exact ⟨rfl, rfl⟩

theorem handle_keywords_next (u : User) (ud : UserData) (t : String)
    (gen : String → Except String String) :
    (handle_keywords u ud t gen).next = ConvState.ended ∨
    (handle_keywords u ud t gen).next = ConvState.enterKeywords := by
  simp only [handle_keywords]
  split
  · exact Or.inl rfl
  · split
    · exact Or.inr rfl
    · split
      · exact Or.inl rfl
      · exact Or.inl rfl

theorem dispatch_SelInv (u : User) (s : Sess) (e : Ev) (h : SelInv s) :
    SelInv (sessOf (dispatch u s e)) := by
  obtain ⟨conv, ud⟩ := s
  obtain ⟨h1, h2⟩ := h
  unfold SelInv
  cases conv with
  | ended =>
    cases e with
    | startCmd => simp [dispatch, start, sessOf, SelInv]
    | cb d =>
      simp only [dispatch]
      split_ifs <;> simp [start, noTurn, sessOf, SelInv]
    | msg t gen => simp [dispatch, noTurn, sessOf, SelInv]
    | cancelCmd => simp [dispatch, unknownTurn, sessOf, SelInv]
  | selectGenres =>
    cases e with
    | startCmd => simp [dispatch, unknownTurn, sessOf, SelInv]
    | cancelCmd => simp [dispatch, cancel, sessOf, SelInv]
    | msg t gen => simp [dispatch, unknownTurn, sessOf, SelInv]
    | cb d =>
      simp only [dispatch]
      split_ifs with hc1 hc2
      · rcases select_genres_next ud d with hn | ⟨hn, hud, hg, hd⟩
        · refine ⟨fun hx => ?_, fun hx => ?_⟩ <;> (rw [sessOf_conv, hn] at hx; cases hx)
        · refine ⟨fun _ => ?_, fun hx => ?_⟩
          · rw [sessOf_ud, hud]
            exact hg
          · rw [sessOf_conv, hn] at hx
            cases hx
      · simp [back_to_genres, sessOf, SelInv]
      · exact ⟨(fun hx => nomatch hx), fun hx => nomatch hx⟩
  | selectYears =>
    cases e with
    | startCmd =>
      refine ⟨fun _ => ?_, fun hx => nomatch hx⟩
      exact h1 rfl
    | cancelCmd => simp [dispatch, cancel, sessOf, SelInv]
    | msg t gen =>
      refine ⟨fun _ => ?_, fun hx => nomatch hx⟩
      exact h1 rfl
    | cb d =>
      simp only [dispatch]
      split_ifs with hc1 hc2
      · rcases select_years_next ud d with hn | ⟨hn, hud, hy, hd⟩
        · refine ⟨fun _ => ?_, fun hx => ?_⟩
          · rw [sessOf_ud, select_years_genres]
            exact h1 rfl
          · rw [sessOf_conv, hn] at hx
            cases hx
        · refine ⟨fun hx => ?_, fun _ => ?_⟩
          · rw [sessOf_conv, hn] at hx
            cases hx
          · rw [sessOf_ud, hud]
            exact ⟨h1 rfl, hy⟩
      · simp [back_to_genres, sessOf, SelInv]
      · exact ⟨fun _ => h1 rfl, fun hx => nomatch hx⟩
  | enterKeywords =>
    cases e with
    | startCmd =>
      refine ⟨(fun hx => nomatch hx), fun _ => ?_⟩
      exact h2 rfl
    | cancelCmd => simp [dispatch, cancel, sessOf, SelInv]
    | msg t gen =>
      simp only [dispatch]
      obtain ⟨hg, hy⟩ := handle_keywords_sel u ud t gen
      rcases handle_keywords_next u ud t gen with hn | hn
      · refine ⟨fun hx => ?_, fun hx => ?_⟩ <;> (rw [sessOf_conv, hn] at hx; cases hx)
      · refine ⟨fun hx => ?_, fun _ => ?_⟩
        · rw [sessOf_conv, hn] at hx
          cases hx
        · rw [sessOf_ud, hg, hy]
          exact h2 rfl
    | cb d =>
      simp only [dispatch]
      split_ifs with hc1
      · refine ⟨fun _ => ?_, fun hx => nomatch hx⟩
        simp only [back_to_years, sessOf_ud]
        exact (h2 rfl).1
      · exact ⟨(fun hx => nomatch hx), fun _ => h2 rfl⟩

theorem dispatch_GenreCap (u : User) (s : Sess) (e : Ev) (h : GenreCap s) :
    GenreCap (sessOf (dispatch u s e)) := by
  obtain ⟨conv, ud⟩ := s
  unfold GenreCap at h ⊢
  cases conv with
  | ended =>
    cases e with
    | startCmd => simp [dispatch, start, sessOf]
    | cb d =>
      simp only [dispatch]
      split_ifs
      · simp [start, sessOf]
      · exact h
    | msg t gen => exact h
    | cancelCmd => exact h
  | selectGenres =>
    cases e with
    | startCmd => exact h
    | msg t gen => exact h
    | cancelCmd => simp [dispatch, cancel, sessOf]
    | cb d =>
      simp only [dispatch]
      split_ifs
      · exact select_genres_len ud d h
      · exact h
      · exact h
  | selectYears =>
    cases e with
    | startCmd => exact h
    | msg t gen => exact h
    | cancelCmd => simp [dispatch, cancel, sessOf]
    | cb d =>
      simp only [dispatch]
      split_ifs
      · rw [sessOf_ud, select_years_genres]
        exact h
      · exact h
      · exact h
  | enterKeywords =>
    cases e with
    | startCmd => exact h
    | cancelCmd => simp [dispatch, cancel, sessOf]
    | msg t gen =>
      simp only [dispatch, sessOf_ud]
      rw [(handle_keywords_sel u ud t gen).1]
      exact h
    | cb d =>
      simp only [dispatch]
      split_ifs
      · exact h
      · exact h

theorem runFrom_inv {P : Sess → Prop}
    (hstep : ∀ u s e, P s → P (sessOf (dispatch u s e)))
    (u : User) (evs : List Ev) (s : Sess) (h : P s) : P (runFrom u s evs) := by
  induction evs generalizing s with
  | nil => exact h
  | cons e t ih => exact ih _ (hstep u s e h)

theorem applyLine_length (slots : List (Option String)) (line : List Char) :
    (applyLine slots line).length = slots.length := by
  unfold applyLine
  split
  · split_ifs
    · simp [List.length_set]
    · rfl
  · rfl

theorem foldl_applyLine_length (ls : List (List Char)) (init : List (Option String)) :
    (ls.foldl applyLine init).length = init.length := by
  induction ls generalizing init with
  | nil => rfl
  | cons l t ih => rw [List.foldl_cons, ih, applyLine_length]

theorem isPrefixL_self_append (a b : List Char) : isPrefixL a (a ++ b) = true := by
  induction a with
  | nil => rfl
  | cons c t ih => simp [isPrefixL, ih]

theorem startswith_append (p g : String) : startswith (p ++ g) p = true := by
  simp only [startswith, String.data_append]
  exact isPrefixL_self_append p.data g.data

/-- Claim C3: the program provides a Title Extractor operation
`extract(responseText)` returning a sequence of 3 optional title slots,
and on the input "1. Dune: 2021, sci-fi. Desc.\n2. Arrival: 2016,
sci-fi. Desc." the result is ["Dune", "Arrival", null].  (`extract` is
modelled from the spec; this revision of the source has no extractor.) -/
theorem claim_C3 :
    (∀ s : String, (extract s).length = 3) ∧
    extract "1. Dune: 2021, sci-fi. Desc.\n2. Arrival: 2016, sci-fi. Desc."
      = [some "Dune", some "Arrival", none] := by
  constructor
  · intro s
    unfold extract
    rw [foldl_applyLine_length]
    rfl
  · decide

/-- Counterexample to claim C4: for a completed dialogue whose model
response yields the extracted title "Dune", no field of the row written
by `save_film_request` holds that title — the record has no
extractedTitle fields. -/
theorem claim_C4_counterexample :
    extract "1. Dune: 2021, sci-fi. Desc.\n2. Arrival: 2016, sci-fi. Desc."
        = [some "Dune", some "Arrival", none] ∧
    ∀ p ∈ save_film_request 1 "u" "f" "l" "Фантастика" "2020-2029" "космос"
        "1. Dune: 2021, sci-fi. Desc.\n2. Arrival: 2016, sci-fi. Desc.",
      p.2 ≠ SqlVal.str "Dune" := by decide

/-- Claim C4 (amended): every persisted film-request row contains the
user id, username, first/last name, empty stub country/city/phone
fields, the rendered genres string, the rendered years string, the
keywords and the raw model response text (the `requested_at` timestamp
is a database default); it contains no extractedTitle fields. -/
theorem claim_C4_amended (user_id : Nat)
    (username first_name last_name genres years keywords gemini_response : String) :
    (save_film_request user_id username first_name last_name genres years keywords
        gemini_response).map Prod.fst =
      ["user_id", "telegram_username", "user_first_name", "user_last_name",
       "user_country", "user_city", "user_phone_number", "genres", "years",
       "keywords", "gemini_response"] ∧
    ("user_id", SqlVal.int user_id) ∈ save_film_request user_id username first_name
        last_name genres years keywords gemini_response ∧
    ("genres", SqlVal.str genres) ∈ save_film_request user_id username first_name
        last_name genres years keywords gemini_response ∧
    ("years", SqlVal.str years) ∈ save_film_request user_id username first_name
        last_name genres years keywords gemini_response ∧
    ("keywords", SqlVal.str keywords) ∈ save_film_request user_id username first_name
        last_name genres years keywords gemini_response ∧
    ("gemini_response", SqlVal.str gemini_response) ∈ save_film_request user_id
        username first_name last_name genres years keywords gemini_response := by
  refine ⟨rfl, ?_, ?_, ?_, ?_, ?_⟩ <;> simp [save_film_request]

/-- Counterexample to claim C9: the prompt built for the model contains
the three-recommendation request ("ТОП-3") but nowhere requests the
numbered answer format — it does not even contain the substring "1.". -/
theorem claim_C9_counterexample :
    containsS (prompt_text "Комедия" "2010-2020" "космос") "ТОП-3" = true ∧
    ¬ containsS (prompt_text "Комедия" "2010-2020" "космос") "1." = true := by
  decide

/-- Claim C9 (amended): for every rendered genre string, year string and
keywords, the prompt requests exactly three recommendations ("ТОП-3")
and asks for title, year of release, genre(s) and a short description,
formatted readably; being a pure function of its three arguments it is
deterministic.  It does not request the numbered "1. Title: Year,
Genre. Description." format. -/
theorem claim_C9_amended (genres_str years_str keywords : String) :
    containsS (prompt_text genres_str years_str keywords) "ТОП-3" = true ∧
    containsS (prompt_text genres_str years_str keywords)
      "Название, Год выпуска, Жанр(ы), Краткое описание (1-2 предложения)" = true := by
  constructor
  · unfold prompt_text
    apply containsS_append_left
    apply containsS_append_left
    apply containsS_append_left
    apply containsS_append_left
    apply containsS_append_left
    apply containsS_append_left
    apply containsS_append_left
    apply containsS_append_left
    apply containsS_append_left
    apply containsS_append_left
    decide
  · unfold prompt_text
    apply containsS_append_left
    apply containsS_append_right
    decide

/-- Counterexample to claim C5: a successful keyword submission moves
the conversation to the terminal completed state but leaves the per-user
session data (here the selected genre "Комедия") in the store. -/
theorem claim_C5_counterexample :
    (dispatch ⟨1, "u", "f", "l"⟩
        ⟨ConvState.enterKeywords, ⟨["Комедия"], ["10-е (2010-2020)"], none⟩⟩
        (Ev.msg "космос" (fun _ => Except.ok "ответ"))).next = ConvState.ended ∧
    ¬ (dispatch ⟨1, "u", "f", "l"⟩
        ⟨ConvState.enterKeywords, ⟨["Комедия"], ["10-е (2010-2020)"], none⟩⟩
        (Ev.msg "космос" (fun _ => Except.ok "ответ"))).ud = ({} : UserData) ∧
    (dispatch ⟨1, "u", "f", "l"⟩
        ⟨ConvState.enterKeywords, ⟨["Комедия"], ["10-е (2010-2020)"], none⟩⟩
        (Ev.msg "космос" (fun _ => Except.ok "ответ"))).ud.selected_genres
      = ["Комедия"] := by
  refine ⟨rfl, ?_, rfl⟩
  decide

/-- Claim C5 (amended): the session data is cleared when the
conversation is cancelled and by a fresh start, but reaching the
completed state after keyword submission leaves the selected genres and
years in the store (only the next start clears them). -/
theorem claim_C5_amended (u : User) (s : Sess) (h : s.conv ≠ ConvState.ended) :
    (dispatch u s Ev.cancelCmd).ud = ({} : UserData) ∧
    (dispatch u s Ev.cancelCmd).next = ConvState.ended ∧
    (start u).ud = ({} : UserData) ∧
    (∀ (ud : UserData) (t : String) (gen : String → Except String String),
      (handle_keywords u ud t gen).ud.selected_genres = ud.selected_genres ∧
      (handle_keywords u ud t gen).ud.selected_years = ud.selected_years) := by
  obtain ⟨conv, ud⟩ := s
  cases conv with
  | ended => exact absurd rfl h
  | selectGenres =>
    exact ⟨rfl, rfl, rfl, fun ud t gen => handle_keywords_sel u ud t gen⟩
  | selectYears =>
    exact ⟨rfl, rfl, rfl, fun ud t gen => handle_keywords_sel u ud t gen⟩
  | enterKeywords =>
    exact ⟨rfl, rfl, rfl, fun ud t gen => handle_keywords_sel u ud t gen⟩

/-- Witness for the amended claim C5 at a concrete session. -/
theorem claim_C5_amended_witness :
    (dispatch ⟨1, "u", "f", "l"⟩ ⟨ConvState.selectGenres, ⟨["a"], [], none⟩⟩
        Ev.cancelCmd).ud = ({} : UserData) ∧
    (dispatch ⟨1, "u", "f", "l"⟩ ⟨ConvState.selectGenres, ⟨["a"], [], none⟩⟩
        Ev.cancelCmd).next = ConvState.ended ∧
    (start ⟨1, "u", "f", "l"⟩).ud = ({} : UserData) ∧
    (∀ (ud : UserData) (t : String) (gen : String → Except String String),
      (handle_keywords ⟨1, "u", "f", "l"⟩ ud t gen).ud.selected_genres
          = ud.selected_genres ∧
      (handle_keywords ⟨1, "u", "f", "l"⟩ ud t gen).ud.selected_years
          = ud.selected_years) :=
  claim_C5_amended ⟨1, "u", "f", "l"⟩ ⟨ConvState.selectGenres, ⟨["a"], [], none⟩⟩
    (by decide)

/-- Claim C6: the user-profile upsert is idempotent — a second call with
the same user id is the identity regardless of its profile arguments
(the stored profile is never overwritten), and starting from a table
with no row for that id, one call stores exactly one profile row. -/
theorem claim_C6 (db : List (Nat × String × String × String)) (user_id : Nat)
    (a b c x y z : String) :
    save_user_data (save_user_data db user_id a b c) user_id x y z =
      save_user_data db user_id a b c ∧
    ((db.filter (fun r => r.1 == user_id)).length = 0 →
      ((save_user_data db user_id a b c).filter
          (fun r => r.1 == user_id)).length = 1) := by
  constructor
  · unfold save_user_data
    cases hfind : db.find? (fun r => r.1 == user_id) with
    | some r => simp [hfind]
    | none =>
      simp only [hfind, Option.isSome_none, Bool.false_eq_true, if_false]
      rw [List.find?_append, hfind]
      simp [List.find?]
  · intro hcnt
    have hnil : db.filter (fun r => r.1 == user_id) = [] :=
      List.length_eq_zero.mp hcnt
    unfold save_user_data
    cases hfind : db.find? (fun r => r.1 == user_id) with
    | some r =>
      have hmem := List.mem_of_find?_eq_some hfind
      have hp := List.find?_some hfind
      have : r ∈ db.filter (fun r => r.1 == user_id) :=
        List.mem_filter.mpr ⟨hmem, hp⟩
      rw [hnil] at this
      cases this
    | none =>
      simp [List.filter_append, hnil, List.filter]

/-- Witness for claim C6 on the empty table. -/
theorem claim_C6_witness :
    save_user_data (save_user_data [] 1 "u" "f" "l") 1 "x" "y" "z" =
      save_user_data [] 1 "u" "f" "l" ∧
    ((save_user_data [] 1 "u" "f" "l").filter
        (fun r => r.1 == 1)).length = 1 :=
  ⟨(claim_C6 [] 1 "u" "f" "l" "x" "y" "z").1,
   (claim_C6 [] 1 "u" "f" "l" "x" "y" "z").2 rfl⟩

/-- Claim C2: if the model call raises during keyword submission, the
conversation still reaches the terminal completed state, no film-request
row is written, and the error reply text is sent exactly once. -/
theorem claim_C2 (u : User) (ud : UserData) (text emsg : String)
    (gen : String → Except String String) (vs : List String)
    (hg : ud.selected_genres.isEmpty = false)
    (hy : ud.selected_years.isEmpty = false)
    (hvs : lookupYears ud.selected_years = some vs)
    (herr : gen (prompt_text (joinSep ", " ud.selected_genres)
        (joinSep ", " vs) text) = Except.error emsg) :
    (handle_keywords u ud text gen).next = ConvState.ended ∧
    (handle_keywords u ud text gen).films = [] ∧
    (handle_keywords u ud text gen).replies.count geminiErrorText = 1 := by
  simp only [handle_keywords, hg, hy, hvs, herr, Bool.or_self, Bool.false_eq_true,
    if_false]
  exact ⟨by trivial, by trivial, by decide⟩

/-- Witness for claim C2 with a concrete session and a failing model. -/
theorem claim_C2_witness :
    (handle_keywords ⟨1, "u", "f", "l"⟩ ⟨["Комедия"], ["10-е (2010-2020)"], none⟩
        "космос" (fun _ => Except.error "boom")).next = ConvState.ended ∧
    (handle_keywords ⟨1, "u", "f", "l"⟩ ⟨["Комедия"], ["10-е (2010-2020)"], none⟩
        "космос" (fun _ => Except.error "boom")).films = [] ∧
    (handle_keywords ⟨1, "u", "f", "l"⟩ ⟨["Комедия"], ["10-е (2010-2020)"], none⟩
        "космос" (fun _ => Except.error "boom")).replies.count geminiErrorText
      = 1 :=
  claim_C2 ⟨1, "u", "f", "l"⟩ ⟨["Комедия"], ["10-е (2010-2020)"], none⟩
    "космос" "boom" (fun _ => Except.error "boom") ["2010-2020"]
    rfl rfl rfl rfl

/-- Counterexample to claim C8: the token "genre_Foo", whose payload
"Foo" is not in the genre catalog, is not a no-op — it is added to the
stored selection, and no alert is emitted. -/
theorem claim_C8_counterexample :
    ("Foo" ∈ FILM_GENRES.map Prod.fst → False) ∧
    (select_genres ⟨[], [], none⟩ "genre_Foo").ud.selected_genres = ["Foo"] ∧
    (select_genres ⟨[], [], none⟩ "genre_Foo").alerts = [] ∧
    (select_genres ⟨[], [], none⟩ "genre_Foo").next = ConvState.selectGenres := by
  decide

/-- Claim C8 (amended): in the genre-selection state, a callback token
that is neither `genre_`-prefixed nor `confirm_genres` nor
`back_to_genres` is a complete no-op (state and selections unchanged,
nothing emitted), while every `genre_`-prefixed token is toggled into
the selection with no catalog-membership check and no alert (when below
the 3-genre cap), the state remaining genre selection. -/
theorem claim_C8_amended (u : User) (ud : UserData) (d : String)
    (hpre : startswith d "genre_" = false)
    (hconf : (d == "confirm_genres") = false)
    (hback : (d == "back_to_genres") = false) :
    dispatch u ⟨ConvState.selectGenres, ud⟩ (Ev.cb d)
      = noTurn ⟨ConvState.selectGenres, ud⟩ ∧
    (∀ d' : String, startswith d' "genre_" = true →
      ud.selected_genres.contains (replaceAllS d' "genre_") = false →
      ud.selected_genres.length < 3 →
      (select_genres ud d').ud.selected_genres
          = ud.selected_genres ++ [replaceAllS d' "genre_"] ∧
      (select_genres ud d').alerts = [] ∧
      (select_genres ud d').next = ConvState.selectGenres) := by
  constructor
  · simp [dispatch, hpre, hconf, hback]
  · intro d' hpre' hmem hlen
    have hmem' : ¬ replaceAllS d' "genre_" ∈ ud.selected_genres := by
      simpa using hmem
    simp [select_genres, hpre', hmem', hlen]

/-- Witness for the amended claim C8 at a concrete token. -/
theorem claim_C8_amended_witness :
    dispatch ⟨1, "u", "f", "l"⟩ ⟨ConvState.selectGenres, ⟨["a"], [], none⟩⟩
        (Ev.cb "bogus")
      = noTurn ⟨ConvState.selectGenres, ⟨["a"], [], none⟩⟩ ∧
    (∀ d' : String, startswith d' "genre_" = true →
      (UserData.mk ["a"] [] none).selected_genres.contains
          (replaceAllS d' "genre_") = false →
      (UserData.mk ["a"] [] none).selected_genres.length < 3 →
      (select_genres ⟨["a"], [], none⟩ d').ud.selected_genres
          = (UserData.mk ["a"] [] none).selected_genres
              ++ [replaceAllS d' "genre_"] ∧
      (select_genres ⟨["a"], [], none⟩ d').alerts = [] ∧
      (select_genres ⟨["a"], [], none⟩ d').next = ConvState.selectGenres) :=
  claim_C8_amended ⟨1, "u", "f", "l"⟩ ⟨["a"], [], none⟩ "bogus"
    (by decide) (by decide) (by decide)

theorem runFrom_cons (u : User) (s : Sess) (e : Ev) (evs : List Ev) :
    runFrom u s (e :: evs) = runFrom u (sessOf (dispatch u s e)) evs := rfl

/-- Claim C1: from the initial session, no event sequence reaches the
keywords-entry state with an empty genre or year selection; the
keywords-entry state is entered only by the confirm-years event under a
non-empty year selection, and the year-selection state is entered from
genre selection only by the confirm-genres event under a non-empty genre
selection. -/
theorem claim_C1 (u : User) :
    (∀ evs : List Ev, (reach u evs).conv = ConvState.enterKeywords →
      (reach u evs).ud.selected_genres ≠ [] ∧
      (reach u evs).ud.selected_years ≠ []) ∧
    (∀ (s : Sess) (e : Ev), (dispatch u s e).next = ConvState.enterKeywords →
      s.conv ≠ ConvState.enterKeywords →
      s.conv = ConvState.selectYears ∧ e = Ev.cb "confirm_years" ∧
        s.ud.selected_years ≠ []) ∧
    (∀ (s : Sess) (e : Ev), (dispatch u s e).next = ConvState.selectYears →
      s.conv = ConvState.selectGenres →
      e = Ev.cb "confirm_genres" ∧ s.ud.selected_genres ≠ []) := by
  refine ⟨?_, ?_, ?_⟩
  · intro evs
    have hinv : SelInv (reach u evs) :=
      runFrom_inv dispatch_SelInv u evs initSess
        ⟨(fun hx => nomatch hx), (fun hx => nomatch hx)⟩
    exact hinv.2
  · rintro ⟨conv, ud⟩ e hnext hne
    cases conv with
    | ended =>
      cases e with
      | startCmd => exact nomatch hnext
      | cb d =>
        simp only [dispatch] at hnext
        split_ifs at hnext
        exact nomatch hnext
      | msg t gen => exact nomatch hnext
      | cancelCmd => exact nomatch hnext
    | selectGenres =>
      cases e with
      | cb d =>
        simp only [dispatch] at hnext
        split_ifs at hnext
        · rcases select_genres_next ud d with hn | ⟨hn, _, _, _⟩ <;>
            (rw [hn] at hnext; exact nomatch hnext)
        · exact nomatch hnext
        · exact nomatch hnext
      | startCmd => exact nomatch hnext
      | msg t gen => exact nomatch hnext
      | cancelCmd => exact nomatch hnext
    | selectYears =>
      cases e with
      | cb d =>
        simp only [dispatch] at hnext
        split_ifs at hnext
        · rcases select_years_next ud d with hn | ⟨hn, hud, hy, hd⟩
          · rw [hn] at hnext
            exact nomatch hnext
          · exact ⟨rfl, by rw [hd], hy⟩
        · exact nomatch hnext
        · exact nomatch hnext
      | startCmd => exact nomatch hnext
      | msg t gen => exact nomatch hnext
      | cancelCmd => exact nomatch hnext
    | enterKeywords => exact absurd rfl hne
  · rintro ⟨conv, ud⟩ e hnext hconv
    obtain rfl : conv = ConvState.selectGenres := hconv
    cases e with
    | cb d =>
      simp only [dispatch] at hnext
      split_ifs at hnext
      · rcases select_genres_next ud d with hn | ⟨hn, hud, hg, hd⟩
        · rw [hn] at hnext
          exact nomatch hnext
        · exact ⟨by rw [hd], hg⟩
      · exact nomatch hnext
      · exact nomatch hnext
    | startCmd => exact nomatch hnext
    | msg t gen => exact nomatch hnext
    | cancelCmd => exact nomatch hnext

/-- Witness for claim C1: a concrete run reaching keyword entry, and
concrete confirm transitions. -/
theorem claim_C1_witness :
    ((reach ⟨1, "u", "f", "l"⟩
        [Ev.startCmd, Ev.cb "genre_a", Ev.cb "confirm_genres",
         Ev.cb "year_b", Ev.cb "confirm_years"]).ud.selected_genres ≠ [] ∧
     (reach ⟨1, "u", "f", "l"⟩
        [Ev.startCmd, Ev.cb "genre_a", Ev.cb "confirm_genres",
         Ev.cb "year_b", Ev.cb "confirm_years"]).ud.selected_years ≠ []) ∧
    ((Sess.mk ConvState.selectYears ⟨["a"], ["b"], none⟩).conv
        = ConvState.selectYears ∧
      Ev.cb "confirm_years" = Ev.cb "confirm_years" ∧
      (Sess.mk ConvState.selectYears ⟨["a"], ["b"], none⟩).ud.selected_years
        ≠ []) ∧
    (Ev.cb "confirm_genres" = Ev.cb "confirm_genres" ∧
      (Sess.mk ConvState.selectGenres ⟨["a"], [], none⟩).ud.selected_genres
        ≠ []) :=
  ⟨(claim_C1 ⟨1, "u", "f", "l"⟩).1
      [Ev.startCmd, Ev.cb "genre_a", Ev.cb "confirm_genres",
       Ev.cb "year_b", Ev.cb "confirm_years"] (by decide),
   (claim_C1 ⟨1, "u", "f", "l"⟩).2.1
      (Sess.mk ConvState.selectYears ⟨["a"], ["b"], none⟩)
      (Ev.cb "confirm_years") (by decide) (by decide),
   (claim_C1 ⟨1, "u", "f", "l"⟩).2.2
      (Sess.mk ConvState.selectGenres ⟨["a"], [], none⟩)
      (Ev.cb "confirm_genres") (by decide) (by decide)⟩

/-- Claim C10: under every event sequence the selected-genre list never
exceeds 3 elements; a genre token for an already-selected genre removes
it, a new genre below the cap is appended, and a new genre at the cap
leaves the selection unchanged with only an alert. -/
theorem claim_C10 (u : User) :
    (∀ evs : List Ev, (reach u evs).ud.selected_genres.length ≤ 3) ∧
    (∀ (ud : UserData) (d : String), startswith d "genre_" = true →
      (ud.selected_genres.contains (replaceAllS d "genre_") = true →
        (select_genres ud d).ud.selected_genres
          = ud.selected_genres.erase (replaceAllS d "genre_")) ∧
      (ud.selected_genres.contains (replaceAllS d "genre_") = false →
        ud.selected_genres.length < 3 →
        (select_genres ud d).ud.selected_genres
          = ud.selected_genres ++ [replaceAllS d "genre_"]) ∧
      (ud.selected_genres.contains (replaceAllS d "genre_") = false →
        ¬ ud.selected_genres.length < 3 →
        (select_genres ud d).ud.selected_genres = ud.selected_genres ∧
        (select_genres ud d).alerts = [maxGenresAlert])) := by
  refine ⟨?_, ?_⟩
  · intro evs
    exact runFrom_inv dispatch_GenreCap u evs initSess (Nat.zero_le 3)
  · intro ud d hpre
    refine ⟨?_, ?_, ?_⟩
    · intro hc
      have hc' : replaceAllS d "genre_" ∈ ud.selected_genres := by simpa using hc
      simp [select_genres, hpre, hc']
    · intro hc hlen
      have hc' : ¬ replaceAllS d "genre_" ∈ ud.selected_genres := by
        simpa using hc
      simp [select_genres, hpre, hc', hlen]
    · intro hc hlen
      have hc' : ¬ replaceAllS d "genre_" ∈ ud.selected_genres := by
        simpa using hc
      simp [select_genres, hpre, hc', hlen]

/-- Witness for claim C10 at concrete selections. -/
theorem claim_C10_witness :
    (reach ⟨1, "u", "f", "l"⟩
        [Ev.startCmd, Ev.cb "genre_a"]).ud.selected_genres.length ≤ 3 ∧
    ((select_genres ⟨["a", "b", "c"], [], none⟩ "genre_d").ud.selected_genres
        = (UserData.mk ["a", "b", "c"] [] none).selected_genres ∧
      (select_genres ⟨["a", "b", "c"], [], none⟩ "genre_d").alerts
        = [maxGenresAlert]) ∧
    (select_genres ⟨["a"], [], none⟩ "genre_a").ud.selected_genres
        = (UserData.mk ["a"] [] none).selected_genres.erase
            (replaceAllS "genre_a" "genre_") :=
  ⟨(claim_C10 ⟨1, "u", "f", "l"⟩).1 [Ev.startCmd, Ev.cb "genre_a"],
   ((claim_C10 ⟨1, "u", "f", "l"⟩).2 ⟨["a", "b", "c"], [], none⟩ "genre_d"
      (by decide)).2.2 (by decide) (by decide),
   ((claim_C10 ⟨1, "u", "f", "l"⟩).2 ⟨["a"], [], none⟩ "genre_a"
      (by decide)).1 (by decide)⟩

/-- Counterexample to claim C7: with genre "Комедия" already selected,
going back to genres and choosing "Драма" then a year range reaches
keyword entry with genres ["Комедия", "Драма"], not ["Драма"] — the
stale genre selection survives the back-navigation. -/
theorem claim_C7_counterexample :
    ¬ ((backThenChoose ⟨1, "u", "f", "l"⟩
          ⟨ConvState.selectYears, ⟨["Комедия"], ["10-е (2010-2020)"], none⟩⟩
          "Драма" "00-е (2000-2009)").ud.selected_genres = ["Драма"] ∧
        (backThenChoose ⟨1, "u", "f", "l"⟩
          ⟨ConvState.selectYears, ⟨["Комедия"], ["10-е (2010-2020)"], none⟩⟩
          "Драма" "00-е (2000-2009)").ud.selected_years = ["00-е (2000-2009)"]) ∧
    (backThenChoose ⟨1, "u", "f", "l"⟩
        ⟨ConvState.selectYears, ⟨["Комедия"], ["10-е (2010-2020)"], none⟩⟩
        "Драма" "00-е (2000-2009)").conv = ConvState.enterKeywords ∧
    (backThenChoose ⟨1, "u", "f", "l"⟩
        ⟨ConvState.selectYears, ⟨["Комедия"], ["10-е (2010-2020)"], none⟩⟩
        "Драма" "00-е (2000-2009)").ud.selected_genres = ["Комедия", "Драма"] ∧
    (backThenChoose ⟨1, "u", "f", "l"⟩
        ⟨ConvState.selectYears, ⟨["Комедия"], ["10-е (2010-2020)"], none⟩⟩
        "Драма" "00-е (2000-2009)").ud.selected_years = ["00-е (2000-2009)"] := by
  decide

/-- Claim C7 (amended): after BackToGenre the year selection is cleared
but the genre selection is retained; choosing a new genre `g` (below the
3-genre cap) and a year range `y` reaches keyword entry with the year
selection exactly `[y]` and the genre selection equal to the prior
genres with `g` appended. -/
theorem claim_C7_amended (u : User) (ud : UserData) (g y : String)
    (hg : replaceAllS ("genre_" ++ g) "genre_" = g)
    (hy : replaceAllS ("year_" ++ y) "year_" = y)
    (hmem : ud.selected_genres.contains g = false)
    (hlen : ud.selected_genres.length < 3) :
    (backThenChoose u ⟨ConvState.selectYears, ud⟩ g y).conv
        = ConvState.enterKeywords ∧
    (backThenChoose u ⟨ConvState.selectYears, ud⟩ g y).ud.selected_genres
        = ud.selected_genres ++ [g] ∧
    (backThenChoose u ⟨ConvState.selectYears, ud⟩ g y).ud.selected_years
        = [y] := by
  have hmem' : ¬ g ∈ ud.selected_genres := by simpa using hmem
  have hpre_g : startswith ("genre_" ++ g) "genre_" = true := startswith_append _ _
  have hpre_y : startswith ("year_" ++ y) "year_" = true := startswith_append _ _
  have hemp : (ud.selected_genres ++ [g]).isEmpty = false := by
    simp [List.isEmpty_iff]
  have hc1 : startswith "confirm_genres" "genre_" = false := by decide
  have hc2 : startswith "confirm_years" "year_" = false := by decide
  have h2 : sessOf (dispatch u
        ⟨ConvState.selectGenres, { ud with selected_years := [] }⟩
        (Ev.cb ("genre_" ++ g)))
      = ⟨ConvState.selectGenres,
          { ud with selected_genres := ud.selected_genres ++ [g],
                    selected_years := [] }⟩ := by
    simp [dispatch, hpre_g, select_genres, hg, hmem', hlen, sessOf]
  have h3 : sessOf (dispatch u
        ⟨ConvState.selectGenres,
          { ud with selected_genres := ud.selected_genres ++ [g],
                    selected_years := [] }⟩
        (Ev.cb "confirm_genres"))
      = ⟨ConvState.selectYears,
          { ud with selected_genres := ud.selected_genres ++ [g],
                    selected_years := [] }⟩ := by
    simp [dispatch, hc1, select_genres, hemp, sessOf]
  have h4 : sessOf (dispatch u
        ⟨ConvState.selectYears,
          { ud with selected_genres := ud.selected_genres ++ [g],
                    selected_years := [] }⟩
        (Ev.cb ("year_" ++ y)))
      = ⟨ConvState.selectYears,
          { ud with selected_genres := ud.selected_genres ++ [g],
                    selected_years := [y] }⟩ := by
    simp [dispatch, hpre_y, select_years, hy, sessOf]
  have h5 : sessOf (dispatch u
        ⟨ConvState.selectYears,
          { ud with selected_genres := ud.selected_genres ++ [g],
                    selected_years := [y] }⟩
        (Ev.cb "confirm_years"))
      = ⟨ConvState.enterKeywords,
          { ud with selected_genres := ud.selected_genres ++ [g],
                    selected_years := [y] }⟩ := by
    simp [dispatch, hc2, select_years, sessOf]
  unfold backThenChoose
  rw [runFrom_cons,
    show sessOf (dispatch u ⟨ConvState.selectYears, ud⟩ (Ev.cb "back_to_genres"))
        = ⟨ConvState.selectGenres, { ud with selected_years := [] }⟩ from rfl,
    runFrom_cons, h2, runFrom_cons, h3, runFrom_cons, h4, runFrom_cons, h5]
  exact ⟨rfl, rfl, rfl⟩

/-- Witness for the amended claim C7 at concrete selections. -/
theorem claim_C7_amended_witness :
    (backThenChoose ⟨1, "u", "f", "l"⟩
        ⟨ConvState.selectYears, ⟨["Комедия"], ["10-е (2010-2020)"], none⟩⟩
        "Драма" "00-е (2000-2009)").conv = ConvState.enterKeywords ∧
    (backThenChoose ⟨1, "u", "f", "l"⟩
        ⟨ConvState.selectYears, ⟨["Комедия"], ["10-е (2010-2020)"], none⟩⟩
        "Драма" "00-е (2000-2009)").ud.selected_genres
      = (UserData.mk ["Комедия"] ["10-е (2010-2020)"] none).selected_genres
          ++ ["Драма"] ∧
    (backThenChoose ⟨1, "u", "f", "l"⟩
        ⟨ConvState.selectYears, ⟨["Комедия"], ["10-е (2010-2020)"], none⟩⟩
        "Драма" "00-е (2000-2009)").ud.selected_years = ["00-е (2000-2009)"] :=
  claim_C7_amended ⟨1, "u", "f", "l"⟩ ⟨["Комедия"], ["10-е (2010-2020)"], none⟩
    "Драма" "00-е (2000-2009)" (by decide) (by decide) (by decide) (by decide)
